import Mathlib

/-!
Verification of the See-My-Speech job-coordination and history-persistence
subsystem: a shallow embedding of `src/core/history_manager.py`,
`src/core/system_checker.py`, `src/workers/transcription_worker.py` and the
relevant methods of `AudioTranscriptionApp` in `src/main.py`, together with
theorems settling the specification claims about them.
-/

namespace SeeMySpeech

/-- One transcription segment, as stored under the `segments` key of a
result dictionary (`{start, end, text}`). -/
structure Segment where
  start : ℚ
  stop : ℚ
  text : String
deriving DecidableEq

/-- A history entry / transcription-result dictionary. Every field models a
dictionary key that may be absent (`none`) or present (`some v`), matching
the Python code's use of `result.get(key, default)` and `'key' in result`.
`timestamp` is the float `time.time()` value, modelled as a rational. -/
structure Entry where
  text : Option String := none
  language : Option String := none
  segments : Option (List Segment) := none
  file_path : Option String := none
  file_name : Option String := none
  timestamp : Option ℚ := none
  date : Option String := none
deriving DecidableEq

/-- The value a Python method call hands back to its caller: the implicit
`None` of a method with no return statement, or an explicit boolean. -/
inductive PyRet where
  | noneVal
  | boolVal (b : Bool)
deriving DecidableEq

namespace HistoryManager

/-- The observable state of a `HistoryManager`: the in-memory `self.history`
list and the backing JSON file. The file is `none` when absent and
`some l` when it holds the JSON serialization of the entry list `l`
(`json.dump` followed by `json.load` reproduces these dictionaries). -/
structure State where
  history : List Entry
  file : Option (List Entry)
deriving DecidableEq

/-- Constructor `HistoryManager.__init__` followed by `load_history`: `self.history`
starts as `[]`; if the backing file exists its contents are loaded. -/
def mkStore (file : Option (List Entry)) : State :=
  { history := file.getD [], file := file }

/-- Outcome of one attempt to write the backing file. The code opens the
file with mode `'w'`, which truncates it before `json.dump` runs, so a
failure part-way through (disk full, permission denied at flush) leaves
the file truncated or partially written — `fail leftover` records
whatever content the interrupted write left behind (`none` when the
leftover is absent or unparseable, `some l` when it happens to parse as
`l`). -/
inductive WriteResult where
  | ok
  | fail (leftover : Option (List Entry))
deriving DecidableEq

/-- Method `save_history`: rewrites the whole backing file with
`self.history`. The `try/except` swallows any write error, printing it and
reporting nothing to the caller; because the open-with-`'w'` has already
truncated the file, a failed write leaves the unspecified `leftover`
content, not the previous content. -/
def save_history (st : State) (w : WriteResult) : State :=
  match w with
  | .ok => { st with file := some st.history }
  | .fail leftover => { st with file := leftover }

/-- The stamping done by `add_transcription`:
`result['timestamp'] = time.time()` and
`result['date'] = time.strftime(...)`, both assigned unconditionally. -/
def stamp (now : ℚ) (dateStr : String) (r : Entry) : Entry :=
  { r with timestamp := some now, date := some dateStr }

/-- Method `add_transcription(result)`: stamps `timestamp` and `date`, appends to
`self.history`, calls `save_history`. The method has no return statement,
so the caller receives `None`. -/
def add_transcription (st : State) (r : Entry) (now : ℚ) (dateStr : String)
    (w : WriteResult) : State × PyRet :=
  let st' := { st with history := st.history ++ [stamp now dateStr r] }
  (save_history st' w, .noneVal)

/-- Method `get_history`: returns `self.history.copy()`; as a sequence of entries
this is the in-memory history. (Object identity of the elements is treated
in the `RefModel` namespace below.) -/
def get_history (st : State) : List Entry :=
  st.history

/-- Method `clear_history`: `self.history.clear()` then `save_history`; returns
`None`. -/
def clear_history (st : State) (w : WriteResult) : State × PyRet :=
  (save_history { st with history := [] } w, .noneVal)

/-- Method `remove_item(index)`: pops `self.history[index]` and saves when
`0 <= index < len(self.history)`, otherwise does nothing; either way the
method has no return statement, so the caller receives `None`. -/
def remove_item (st : State) (index : ℤ) (w : WriteResult) : State × PyRet :=
  if 0 ≤ index ∧ index < st.history.length then
    (save_history { st with history := st.history.eraseIdx index.toNat } w, .noneVal)
  else
    (st, .noneVal)

/-- The text written by `export_item`: `File:`, `Language:` and `Date:`
lines from `result.get(..., 'Unknown')`, a `Path:` line only when
`'file_path' in result`, then a blank line, `Transcription:` and the text
(`result.get('text', '')`). -/
def render (r : Entry) : String :=
  "File: " ++ (r.file_name.getD "Unknown") ++ "\n" ++
  "Language: " ++ (r.language.getD "Unknown") ++ "\n" ++
  "Date: " ++ (r.date.getD "Unknown") ++ "\n" ++
  (match r.file_path with
   | some p => "Path: " ++ p ++ "\n"
   | none => "") ++
  "\nTranscription:\n" ++ (r.text.getD "")

/-- Outcome of the write `export_item` attempts on the destination file:
`ok`, or `fail leftover` when it raises mid-stream, where `leftover` is
whatever partial content the interrupted write left at the destination
(`none` when nothing reached the disk). -/
inductive ExportWrite where
  | ok
  | fail (leftover : Option String)
deriving DecidableEq

/-- Method `export_item(index, output_path)`: returns `False` without
touching the destination when the index is out of range; otherwise writes
the rendered entry and returns `True`, or returns `False` when the write
raises (the exception is caught and printed, and the destination is left
with whatever partial content the failed write produced). The first
component is the content of the destination file (`none` when nothing was
written). -/
def export_item (st : State) (index : ℤ) (w : ExportWrite) :
    Option String × PyRet :=
  if 0 ≤ index ∧ index < st.history.length then
    match w with
    | .ok => (some (render (st.history.getD index.toNat {})), .boolVal true)
    | .fail leftover => (leftover, .boolVal false)
  else
    (none, .boolVal false)

/-- A sequence of `add_transcription` calls, each with a successful write,
as performed against one store. -/
def addManyOk (st : State) (rs : List (Entry × ℚ × String)) : State :=
  rs.foldl (fun s x => (add_transcription s x.1 x.2.1 x.2.2 .ok).1) st

end HistoryManager

namespace SystemChecker

/-- The capability dictionary produced by `SystemChecker.check_system`
(`src/core/system_checker.py` and its copy in `src/main.py`). Memory
figures are modelled as rationals. -/
structure SysInfo where
  device : String
  gpu_name : Option String
  gpu_memory : ℚ
  ram_available : ℚ
  recommended_model : String
deriving DecidableEq

/-- Method `check_system()`: builds the defaults, fills in GPU fields when CUDA is
available, reads available RAM, then recommends a model size from
`ram_available` alone by the `< 4 / < 8 / < 16 / else` ladder. -/
def check_system (cudaAvailable : Bool) (gpuName : String) (gpuMemory : ℚ)
    (ramAvailable : ℚ) : SysInfo :=
  let info : SysInfo :=
    { device := "cpu", gpu_name := none, gpu_memory := 0,
      ram_available := 0, recommended_model := "base" }
  let info :=
    if cudaAvailable then
      { info with device := "cuda", gpu_name := some gpuName,
                  gpu_memory := gpuMemory }
    else info
  let info := { info with ram_available := ramAvailable }
  let info :=
    if info.ram_available < 4 then { info with recommended_model := "tiny" }
    else if info.ram_available < 8 then { info with recommended_model := "base" }
    else if info.ram_available < 16 then { info with recommended_model := "small" }
    else { info with recommended_model := "medium" }
  info

end SystemChecker

namespace Worker

/-- A signal emitted by a worker thread: `progress(str)`, `finished(dict)`
or `error(str)`. -/
inductive Event where
  | progress (msg : String)
  | finished (out : Entry)
  | error (msg : String)
deriving DecidableEq

/-- Events `finished` and `error` are the terminal lifecycle events; `progress`
is not. -/
def Event.isTerminal : Event → Bool
  | .progress _ => false
  | .finished _ => true
  | .error _ => true

/-- The dictionary returned by the external `model.transcribe` call, as the
worker reads it: `result["text"]`, `result["language"]`,
`result["segments"]`. -/
structure RawResult where
  text : String
  language : String
  segments : List Segment
deriving DecidableEq

/-- The `output` dictionary `TranscriptionWorker.run` builds from the raw
result: stripped text, language, segments, and the provenance of the
audio file. -/
def formatOutput (audioFile baseName : String) (res : RawResult) : Entry :=
  { text := some res.text.trim, language := some res.language,
    segments := some res.segments, file_path := some audioFile,
    file_name := some baseName }

/-- Method `TranscriptionWorker.run`, as the list of signals it emits.
`audioExists` is `os.path.exists(self.audio_file)`; `modelLoaded` is
`self.model is not None`; `sizeMsg` is the formatted
`Processing file (N MB)...` message; `transcribe` is the outcome of the
blocking external call (`.error e` when it raises, caught by the outer
`try/except`); `cancelledAtCheckpoint` is the value of `self.is_cancelled`
at the single checkpoint, which the code consults only after `transcribe`
returns. When the flag is set there, the method returns with no further
emission; no `Cancelled` signal exists in the code. -/
def run (audioExists modelLoaded : Bool) (audioFile baseName sizeMsg : String)
    (transcribe : Except String RawResult) (cancelledAtCheckpoint : Bool) :
    List Event :=
  if ¬ audioExists then [.error "Audio file not found"]
  else if ¬ modelLoaded then [.error "Model not loaded"]
  else
    let pre := [Event.progress "Starting transcription...",
                Event.progress sizeMsg]
    match transcribe with
    | .error e => pre ++ [.error ("Transcription failed: " ++ e)]
    | .ok res =>
        if cancelledAtCheckpoint then pre
        else pre ++ [.progress "Transcription complete!",
                     .finished (formatOutput audioFile baseName res)]

/-- The number of terminal events in an emitted stream. -/
def terminalCount (evs : List Event) : Nat :=
  (evs.filter Event.isTerminal).length

end Worker

namespace App

/-- The slice of `AudioTranscriptionApp` state that `load_model` and
`start_transcription` consult and update. `modelLoaderRunning` models
`self.model_loader and self.model_loader.isRunning()`; `workerRunning`
models the transcription worker thread being alive. The `Started`
counters record how many worker threads each method has launched. -/
structure AppState where
  modelLoaderRunning : Bool
  loaderSize : Option String
  loadersStarted : Nat
  filePathLabel : String
  modelLoaded : Bool
  workerRunning : Bool
  workersStarted : Nat
deriving DecidableEq

/-- What `start_transcription` does before returning: warn about a missing
file, warn about a missing model, or construct and start a new worker. -/
inductive StartOutcome where
  | warnedNoFile
  | warnedNoModel
  | started
deriving DecidableEq

/-- Method `AudioTranscriptionApp.load_model(model_size)`: if a loader thread is
already running the method returns at once (no message, no error, no new
thread); otherwise it constructs a `ModelLoader` and starts it. The
boolean reports whether a new loader thread was started. -/
def load_model (st : AppState) (modelSize : String) : AppState × Bool :=
  if st.modelLoaderRunning then (st, false)
  else
    ({ st with modelLoaderRunning := true, loaderSize := some modelSize,
               loadersStarted := st.loadersStarted + 1 }, true)

/-- Method `AudioTranscriptionApp.start_transcription()`: warns and returns when no
file is selected or the model is not loaded; otherwise it unconditionally
constructs a fresh `TranscriptionWorker` (overwriting
`self.transcription_worker`) and starts it — there is no check that a
previous transcription worker is still running. -/
def start_transcription (st : AppState) : AppState × StartOutcome :=
  if st.filePathLabel = "" ∨ st.filePathLabel = "No file selected" then
    (st, .warnedNoFile)
  else if ¬ st.modelLoaded then
    (st, .warnedNoModel)
  else
    ({ st with workerRunning := true,
               workersStarted := st.workersStarted + 1 }, .started)

end App

namespace RefModel

/-- A heap of Python dictionary objects: an address is an index into the
heap. This models object identity, which the plain `HistoryManager.State`
view abstracts away. -/
abbrev Heap := List Entry

/-- A `HistoryManager` whose `self.history` list holds references to heap
objects. -/
structure Store where
  refs : List Nat
deriving DecidableEq

/-- The entries the store currently denotes: each reference dereferenced in
the heap. -/
def entriesOf (h : Heap) (s : Store) : List Entry :=
  s.refs.map (fun r => h.getD r {})

/-- A heap of Python list objects: an address is an index into `lists`, and
the object at an address is the list of entry references it holds. This
models the identity of list objects themselves, needed to distinguish
`self.history.copy()` from returning `self.history`. -/
structure ListHeap where
  lists : List (List Nat)
deriving DecidableEq

/-- A `HistoryManager` object whose `self.history` attribute is a reference
to a list object in the list heap. -/
structure StoreObj where
  historyRef : Nat
deriving DecidableEq

/-- The element references held by the list object at address `a`. -/
def listContent (lh : ListHeap) (a : Nat) : List Nat :=
  lh.lists.getD a []

/-- Method `get_history` at the list-object level: `self.history.copy()`
allocates a NEW list object (a fresh address at the end of the list heap)
holding the same element references as `self.history`, copying no
dictionaries; the new address is returned to the caller. -/
def get_history (lh : ListHeap) (s : StoreObj) : ListHeap × Nat :=
  (⟨lh.lists ++ [listContent lh s.historyRef]⟩, lh.lists.length)

/-- In-place `list.append(x)` on the list object at address `a`, as a caller
may perform on the list `get_history` returned. -/
def listAppend (lh : ListHeap) (a x : Nat) : ListHeap :=
  ⟨lh.lists.set a (listContent lh a ++ [x])⟩

/-- In-place removal of index `i` from the list object at address `a`
(`del lst[i]` / `lst.pop(i)`), as a caller may perform on the list
`get_history` returned. -/
def listRemoveAt (lh : ListHeap) (a i : Nat) : ListHeap :=
  ⟨lh.lists.set a ((listContent lh a).eraseIdx i)⟩

/-- The entries denoted by the list object at address `a`: each element
reference dereferenced in the entry heap. The store's next persisted
write serializes exactly `entriesAt h lh s.historyRef`. -/
def entriesAt (h : Heap) (lh : ListHeap) (a : Nat) : List Entry :=
  (listContent lh a).map (fun r => h.getD r {})

/-- Method `save_history` at the reference level: what `json.dump` serializes is
the dereferenced content of `self.history` at write time. -/
def save_history (h : Heap) (s : Store) : List Entry :=
  entriesOf h s

/-- Method `add_transcription(result)` at the reference level: the two key
assignments mutate the caller's dictionary object in the heap, and
`self.history.append(result)` stores the same reference, with no copy. -/
def add_transcription (h : Heap) (s : Store) (r : Nat) (now : ℚ)
    (dateStr : String) : Heap × Store :=
  (h.set r (HistoryManager.stamp now dateStr (h.getD r {})),
   { refs := s.refs ++ [r] })

end RefModel

/-! ## Theorems -/

/-- The recommendation ladder of `check_system`, as a function of
`ram_available` alone. -/
theorem SystemChecker.check_system_recommended (cuda : Bool) (g : String)
    (m ram : ℚ) :
    (SystemChecker.check_system cuda g m ram).recommended_model =
      if ram < 4 then "tiny"
      else if ram < 8 then "base"
      else if ram < 16 then "small"
      else "medium" := by
  cases cuda <;> simp only [SystemChecker.check_system] <;> split_ifs <;> rfl

/-- C5: the recommended model tier is determined by `ram_available` alone,
with thresholds `< 4 → tiny`, `[4, 8) → base`, `[8, 16) → small`,
`≥ 16 → medium`, and `large` is never returned by the probe. -/
theorem C5_recommended_tier (cuda : Bool) (g : String) (m ram : ℚ) :
    ((SystemChecker.check_system cuda g m ram).recommended_model = "tiny"
        ↔ ram < 4) ∧
    ((SystemChecker.check_system cuda g m ram).recommended_model = "base"
        ↔ (4 ≤ ram ∧ ram < 8)) ∧
    ((SystemChecker.check_system cuda g m ram).recommended_model = "small"
        ↔ (8 ≤ ram ∧ ram < 16)) ∧
    ((SystemChecker.check_system cuda g m ram).recommended_model = "medium"
        ↔ 16 ≤ ram) ∧
    (SystemChecker.check_system cuda g m ram).recommended_model ≠ "large" ∧
    (∀ (cuda2 : Bool) (g2 : String) (m2 : ℚ),
      (SystemChecker.check_system cuda2 g2 m2 ram).recommended_model
        = (SystemChecker.check_system cuda g m ram).recommended_model) := by
  rw [SystemChecker.check_system_recommended]
  refine ⟨?_, ?_, ?_, ?_, ?_, ?_⟩
  · split_ifs with h1 h2 h3 <;> simp_all <;> intros <;>
      first | linarith | (constructor <;> linarith)
  · split_ifs with h1 h2 h3 <;> simp_all <;> intros <;>
      first | linarith | (constructor <;> linarith)
  · split_ifs with h1 h2 h3 <;> simp_all <;> intros <;>
      first | linarith | (constructor <;> linarith)
  · split_ifs with h1 h2 h3 <;> simp_all <;> intros <;>
      first | linarith | (constructor <;> linarith)
  · split_ifs <;> simp_all
  · intro cuda2 g2 m2
    rw [SystemChecker.check_system_recommended]

/-- Witness for C5 at `ram_available = 6`: the recommendation is `base`. -/
theorem C5_recommended_tier_witness :
    (SystemChecker.check_system false "" 0 6).recommended_model = "base" :=
  ((C5_recommended_tier false "" 0 6).2.1).2 ⟨by norm_num, by norm_num⟩

/-- C1 counterexample: a job whose cancellation flag is set before the
checkpoint (and whose external call returns normally) emits only the two
progress events — its stream contains zero terminal events, not exactly
one, and no `Cancelled` event exists anywhere in the code's signal set. -/
theorem C1_counterexample :
    Worker.run true true "a.wav" "a.wav" "Processing file (1.0 MB)..."
        (.ok ⟨"hi", "en", []⟩) true
      = [.progress "Starting transcription...",
         .progress "Processing file (1.0 MB)..."] ∧
    Worker.terminalCount
        (Worker.run true true "a.wav" "a.wav" "Processing file (1.0 MB)..."
          (.ok ⟨"hi", "en", []⟩) true) ≠ 1 := by
  exact ⟨rfl, by decide⟩

/-- C1 (amended): cancelling before the checkpoint yields a stream with NO
terminal event at all — the worker returns silently after its progress
events, so there is never a `Completed` (`finished`) event, never two
terminal events, and no events after the last progress event. -/
theorem C1_cancel_before_checkpoint (audioFile baseName sizeMsg : String)
    (res : Worker.RawResult) :
    Worker.run true true audioFile baseName sizeMsg (.ok res) true
      = [.progress "Starting transcription...", .progress sizeMsg] ∧
    Worker.terminalCount
        (Worker.run true true audioFile baseName sizeMsg (.ok res) true) = 0 ∧
    (∀ e ∈ Worker.run true true audioFile baseName sizeMsg (.ok res) true,
      e.isTerminal = false) := by
  refine ⟨rfl, rfl, ?_⟩
  intro e he
  have hs : Worker.run true true audioFile baseName sizeMsg (.ok res) true
      = [Worker.Event.progress "Starting transcription...",
         Worker.Event.progress sizeMsg] := rfl
  rw [hs] at he
  rcases List.mem_cons.mp he with h | h
  · subst h; rfl
  · rcases List.mem_cons.mp h with h2 | h2
    · subst h2; rfl
    · exact absurd h2 (List.not_mem_nil e)

/-- Witness for C1: in a concrete cancelled run the first emitted event is
a progress event, hence not terminal. -/
theorem C1_cancel_before_checkpoint_witness :
    Worker.Event.isTerminal
        (Worker.Event.progress "Starting transcription...") = false :=
  (C1_cancel_before_checkpoint "a.wav" "a.wav" "Processing file (1.0 MB)..."
      ⟨"hi", "en", []⟩).2.2
    (Worker.Event.progress "Starting transcription...") (by decide)

/-- C2 counterexample: with a transcription worker already running
(`workerRunning = true`, one worker started), a file selected and a model
loaded, `start_transcription` starts a second worker — it neither fails
nor reports any `AlreadyRunning` condition. -/
theorem C2_counterexample :
    (App.start_transcription
        ⟨false, none, 0, "a.wav", true, true, 1⟩).2
      = App.StartOutcome.started ∧
    (App.start_transcription
        ⟨false, none, 0, "a.wav", true, true, 1⟩).1.workersStarted = 2 := by
  exact ⟨rfl, rfl⟩

/-- C2 (amended): a second `load_model` call while the loader thread is
running is a silent no-op — the state is unchanged and no new loader
starts, but no `AlreadyRunning` failure is reported; and
`start_transcription` has no running-worker guard at all: whenever a file
is selected and the model is loaded it starts a fresh worker regardless of
`workerRunning`. -/
theorem C2_second_start (st : App.AppState) (size : String) :
    (st.modelLoaderRunning = true → App.load_model st size = (st, false)) ∧
    (st.filePathLabel ≠ "" → st.filePathLabel ≠ "No file selected" →
      st.modelLoaded = true →
      (App.start_transcription st).2 = App.StartOutcome.started ∧
      (App.start_transcription st).1.workersStarted
        = st.workersStarted + 1) := by
  constructor
  · intro h
    simp [App.load_model, h]
  · intro h1 h2 h3
    simp [App.start_transcription, h1, h2, h3]

/-- Witness for C2: the no-op second `load_model` and the guard-free second
`start_transcription` at concrete states. -/
theorem C2_second_start_witness :
    App.load_model ⟨true, none, 1, "a.wav", true, false, 0⟩ "base"
      = (⟨true, none, 1, "a.wav", true, false, 0⟩, false) ∧
    (App.start_transcription
        ⟨false, none, 0, "b.wav", true, true, 1⟩).2
      = App.StartOutcome.started :=
  ⟨(C2_second_start ⟨true, none, 1, "a.wav", true, false, 0⟩ "base").1 rfl,
   ((C2_second_start ⟨false, none, 0, "b.wav", true, true, 1⟩ "base").2
      (by decide) (by decide) rfl).1⟩

/-- C3 counterexample: an `add_transcription` whose backing-file write fails
returns exactly what a successful call returns — the bare `None`, with no
`PersistFailed(detail)` or any other failure report — while the in-memory
history does keep the appended entry. -/
theorem C3_counterexample :
    (HistoryManager.add_transcription (HistoryManager.mkStore none) {}
        5 "2024-01-01 00:00:00" (.fail none)).2
      = (HistoryManager.add_transcription (HistoryManager.mkStore none) {}
          5 "2024-01-01 00:00:00" .ok).2 ∧
    (HistoryManager.add_transcription (HistoryManager.mkStore none) {}
        5 "2024-01-01 00:00:00" (.fail none)).2 = PyRet.noneVal ∧
    (HistoryManager.add_transcription (HistoryManager.mkStore none) {}
        5 "2024-01-01 00:00:00" (.fail none)).1.history
      = [HistoryManager.stamp 5 "2024-01-01 00:00:00" {}] :=
  ⟨rfl, rfl, rfl⟩

/-- C3 (amended): when the write fails, `add`/`remove`/`clear` keep the
in-memory mutation (the history is exactly what a successful call would
leave) while the failure is swallowed inside `save_history` (caught and
printed): each call returns the same `None` it returns on success, so
nothing is reported to the caller. The backing file is left with whatever
content the interrupted truncate-then-write produced (`lf`), not rolled
back. -/
theorem C3_persist_failure_swallowed (st : HistoryManager.State) (r : Entry)
    (now : ℚ) (d : String) (i : ℤ) (lf : Option (List Entry)) :
    ((HistoryManager.add_transcription st r now d (.fail lf)).1.history
        = (HistoryManager.add_transcription st r now d .ok).1.history ∧
     (HistoryManager.add_transcription st r now d (.fail lf)).1.file = lf ∧
     (HistoryManager.add_transcription st r now d (.fail lf)).2
        = (HistoryManager.add_transcription st r now d .ok).2 ∧
     (HistoryManager.add_transcription st r now d (.fail lf)).2
        = PyRet.noneVal) ∧
    ((HistoryManager.remove_item st i (.fail lf)).1.history
        = (HistoryManager.remove_item st i .ok).1.history ∧
     (HistoryManager.remove_item st i (.fail lf)).2 = PyRet.noneVal) ∧
    ((HistoryManager.clear_history st (.fail lf)).1.history = [] ∧
     (HistoryManager.clear_history st (.fail lf)).1.file = lf ∧
     (HistoryManager.clear_history st (.fail lf)).2 = PyRet.noneVal) := by
  refine ⟨⟨rfl, rfl, rfl, rfl⟩, ?_, ⟨rfl, rfl, rfl⟩⟩
  by_cases hg : 0 ≤ i ∧ i < st.history.length <;>
    simp [HistoryManager.remove_item, HistoryManager.save_history, hg]

/-- C4 counterexample: an entry arriving with `timestamp` already set to `5`
is re-stamped to the current time `7` — `createdAt` is overwritten, not
"set only if unset" — and the call returns `None`, not the assigned
index. -/
theorem C4_counterexample :
    ((HistoryManager.add_transcription (HistoryManager.mkStore none)
        { timestamp := some 5 } 7 "2024-01-02 00:00:00" .ok).1.history.getD
        0 {}).timestamp = some 7 ∧
    ((HistoryManager.add_transcription (HistoryManager.mkStore none)
        { timestamp := some 5 } 7 "2024-01-02 00:00:00" .ok).1.history.getD
        0 {}).timestamp ≠ some 5 ∧
    (HistoryManager.add_transcription (HistoryManager.mkStore none)
        { timestamp := some 5 } 7 "2024-01-02 00:00:00" .ok).2
      = PyRet.noneVal :=
  ⟨rfl, by decide, rfl⟩

/-- C4 (amended): `add_transcription` stamps `timestamp` and `date`
unconditionally (overwriting any values already present), appends the
stamped entry, persists immediately (the file now holds the new history),
and returns `None` — it does not return the assigned index. -/
theorem C4_add_stamps_unconditionally (st : HistoryManager.State) (r : Entry)
    (now : ℚ) (d : String) :
    (HistoryManager.add_transcription st r now d .ok).1.history
      = st.history ++ [HistoryManager.stamp now d r] ∧
    (HistoryManager.stamp now d r).timestamp = some now ∧
    (HistoryManager.stamp now d r).date = some d ∧
    (HistoryManager.add_transcription st r now d .ok).1.file
      = some (st.history ++ [HistoryManager.stamp now d r]) ∧
    (HistoryManager.add_transcription st r now d .ok).2 = PyRet.noneVal :=
  ⟨rfl, rfl, rfl, rfl, rfl⟩

/-- Invariant behind the round-trip: a store whose file content reloads to
its in-memory history keeps that property across any sequence of
successful `add_transcription` calls, each of which appends its stamped
entry. -/
theorem HistoryManager.addManyOk_spec (rs : List (Entry × ℚ × String)) :
    ∀ st : HistoryManager.State,
      (HistoryManager.mkStore st.file).history = st.history →
      (HistoryManager.mkStore
          (HistoryManager.addManyOk st rs).file).history
        = (HistoryManager.addManyOk st rs).history ∧
      (HistoryManager.addManyOk st rs).history
        = st.history
            ++ rs.map (fun x => HistoryManager.stamp x.2.1 x.2.2 x.1) := by
  induction rs with
  | nil =>
      intro st h
      exact ⟨h, by simp [HistoryManager.addManyOk]⟩
  | cons x xs ih =>
      intro st _
      have hstep :
          HistoryManager.addManyOk st (x :: xs)
            = HistoryManager.addManyOk
                ⟨st.history ++ [HistoryManager.stamp x.2.1 x.2.2 x.1],
                 some (st.history
                   ++ [HistoryManager.stamp x.2.1 x.2.2 x.1])⟩ xs := rfl
      rw [hstep]
      have h2 := ih ⟨st.history ++ [HistoryManager.stamp x.2.1 x.2.2 x.1],
                     some (st.history
                       ++ [HistoryManager.stamp x.2.1 x.2.2 x.1])⟩ rfl
      refine ⟨h2.1, ?_⟩
      rw [h2.2]
      simp

/-- C6: any sequence of entries added through a fresh store (all writes
succeeding) round-trips: a fresh store constructed over the resulting
backing file loads exactly the in-memory sequence, which is the stamped
entries in addition order. -/
theorem C6_roundtrip (rs : List (Entry × ℚ × String)) :
    (HistoryManager.mkStore
        (HistoryManager.addManyOk (HistoryManager.mkStore none) rs).file).history
      = (HistoryManager.addManyOk (HistoryManager.mkStore none) rs).history ∧
    (HistoryManager.addManyOk (HistoryManager.mkStore none) rs).history
      = rs.map (fun x => HistoryManager.stamp x.2.1 x.2.2 x.1) := by
  have h := HistoryManager.addManyOk_spec rs (HistoryManager.mkStore none) rfl
  exact ⟨h.1, by rw [h.2]; rfl⟩

/-- Lemma: `save_history` with a successful write rewrites the file with the
in-memory history. -/
theorem HistoryManager.save_history_ok (st : HistoryManager.State) :
    HistoryManager.save_history st .ok
      = { st with file := some st.history } := rfl

/-- C7 counterexample: removing at the out-of-range index 5 of a one-entry
store is indeed a silent no-op, but the call returns Python's `None`, not
the boolean `False` the claim states. -/
theorem C7_counterexample :
    HistoryManager.remove_item (HistoryManager.mkStore (some [{}])) 5 .ok
      = (HistoryManager.mkStore (some [{}]), PyRet.noneVal) ∧
    (HistoryManager.remove_item
        (HistoryManager.mkStore (some [{}])) 5 .ok).2
      ≠ PyRet.boolVal false := by
  exact ⟨by decide, by decide⟩

/-- C7 (amended): out-of-range `remove_item` is a silent no-op returning
`None` (the method has no return value at all, so it never returns
`false`); an in-range `remove_item` deletes exactly the targeted entry and
persists: the new history is the original with position `i` cut out
(earlier entries unchanged, later ones shifted down by one), its length is
`n − 1`, the file holds the same shortened sequence, and the call returns
`None`. -/
theorem C7_remove_semantics (st : HistoryManager.State) (i : ℤ) :
    (¬ (0 ≤ i ∧ i < st.history.length) →
      HistoryManager.remove_item st i .ok = (st, PyRet.noneVal)) ∧
    (0 ≤ i → i < st.history.length →
      (HistoryManager.remove_item st i .ok).1.history
          = st.history.take i.toNat ++ st.history.drop (i.toNat + 1) ∧
      (HistoryManager.remove_item st i .ok).1.history.length
          = st.history.length - 1 ∧
      (HistoryManager.remove_item st i .ok).1.file
          = some (st.history.take i.toNat
              ++ st.history.drop (i.toNat + 1)) ∧
      (HistoryManager.remove_item st i .ok).2 = PyRet.noneVal) := by
  constructor
  · intro hg
    unfold HistoryManager.remove_item
    rw [if_neg hg]
  · intro h0 h1
    have hg : 0 ≤ i ∧ i < (st.history.length : ℤ) := ⟨h0, h1⟩
    have htn : i.toNat < st.history.length := by omega
    have hr : HistoryManager.remove_item st i .ok
        = ({ history := st.history.eraseIdx i.toNat,
             file := some (st.history.eraseIdx i.toNat) },
           PyRet.noneVal) := by
      unfold HistoryManager.remove_item
      rw [if_pos hg, HistoryManager.save_history_ok]
    rw [hr]
    refine ⟨List.eraseIdx_eq_take_drop_succ _ _, ?_,
      by rw [List.eraseIdx_eq_take_drop_succ], rfl⟩
    exact List.length_eraseIdx_of_lt htn

/-- Witness for C7: removing index 0 from a two-entry store yields a
one-entry history. -/
theorem C7_remove_semantics_witness :
    (HistoryManager.remove_item
        (HistoryManager.mkStore
          (some [{ text := some "a" }, { text := some "b" }])) 0
        .ok).1.history.length
      = (HistoryManager.mkStore
          (some [{ text := some "a" }, { text := some "b" }])).history.length
          - 1 :=
  ((C7_remove_semantics
      (HistoryManager.mkStore
        (some [{ text := some "a" }, { text := some "b" }])) 0).2
    (by decide) (by decide)).2.1

/-- C8 counterexample: an out-of-range `export_item` and an in-range
`export_item` whose write fails produce identical outcomes — nothing
written and the bare return `False` — so the caller receives no
`IndexOutOfRange` or `WriteFailed(detail)` value and cannot even
distinguish the two failure kinds. -/
theorem C8_counterexample :
    HistoryManager.export_item (HistoryManager.mkStore (some [{}])) 5 .ok
      = HistoryManager.export_item
          (HistoryManager.mkStore (some [{}])) 0 (.fail none) ∧
    (HistoryManager.export_item
        (HistoryManager.mkStore (some [{}])) 5 .ok).2
      = PyRet.boolVal false := by
  exact ⟨by decide, by decide⟩

/-- C8 (amended): for an in-range index with a successful write,
`export_item` writes the plain-text rendering in fixed order — the
`File:` line first, then the `Language:` line, the `Date:` line, the
`Path:` line (omitted when the entry has no `file_path`), a blank line,
the `Transcription:` line and the full text — and returns `True`; for an
out-of-range index it writes nothing and returns `False`; when the write
itself fails it also returns the bare `False` (the exception detail is
only printed, not reported). -/
theorem C8_export_semantics (st : HistoryManager.State) (i : ℤ)
    (nm lang dt p txt : String) (lf : Option String) :
    (0 ≤ i → i < st.history.length →
      (st.history.getD i.toNat {}).file_name = some nm →
      (st.history.getD i.toNat {}).language = some lang →
      (st.history.getD i.toNat {}).date = some dt →
      (st.history.getD i.toNat {}).file_path = some p →
      (st.history.getD i.toNat {}).text = some txt →
      HistoryManager.export_item st i .ok
        = (some (("File: " ++ nm ++ "\n") ++ ("Language: " ++ lang ++ "\n")
            ++ ("Date: " ++ dt ++ "\n") ++ ("Path: " ++ p ++ "\n")
            ++ "\nTranscription:\n" ++ txt),
           PyRet.boolVal true)) ∧
    (0 ≤ i → i < st.history.length →
      (st.history.getD i.toNat {}).file_name = some nm →
      (st.history.getD i.toNat {}).language = some lang →
      (st.history.getD i.toNat {}).date = some dt →
      (st.history.getD i.toNat {}).file_path = none →
      (st.history.getD i.toNat {}).text = some txt →
      HistoryManager.export_item st i .ok
        = (some (("File: " ++ nm ++ "\n") ++ ("Language: " ++ lang ++ "\n")
            ++ ("Date: " ++ dt ++ "\n")
            ++ "\nTranscription:\n" ++ txt),
           PyRet.boolVal true)) ∧
    (¬ (0 ≤ i ∧ i < st.history.length) →
      ∀ w : HistoryManager.ExportWrite,
        HistoryManager.export_item st i w = (none, PyRet.boolVal false)) ∧
    (HistoryManager.export_item st i (.fail lf)).2
      = PyRet.boolVal false := by
  refine ⟨?_, ?_, ?_, ?_⟩
  · intro h0 h1 hnm hlang hdt hp htxt
    have hg : 0 ≤ i ∧ i < (st.history.length : ℤ) := ⟨h0, h1⟩
    unfold HistoryManager.export_item
    rw [if_pos hg]
    unfold HistoryManager.render
    rw [hnm, hlang, hdt, hp, htxt]
    simp only [String.append_assoc, Option.getD_some]
  · intro h0 h1 hnm hlang hdt hp htxt
    have hg : 0 ≤ i ∧ i < (st.history.length : ℤ) := ⟨h0, h1⟩
    unfold HistoryManager.export_item
    rw [if_pos hg]
    unfold HistoryManager.render
    rw [hnm, hlang, hdt, hp, htxt]
    simp only [String.append_assoc, Option.getD_some]
    rfl
  · intro hg w
    unfold HistoryManager.export_item
    rw [if_neg hg]
  · unfold HistoryManager.export_item
    by_cases hg : 0 ≤ i ∧ i < (st.history.length : ℤ)
    · rw [if_pos hg]
    · rw [if_neg hg]

/-- Witness for C8: exporting index 0 of a concrete one-entry store — an
entry with its stamped timestamp and its segments present, as the program
actually stores them — produces the fully rendered text and returns
`True`. -/
theorem C8_export_semantics_witness :
    HistoryManager.export_item
        (HistoryManager.mkStore
          (some [{ text := some "hello", language := some "en",
                   segments := some [⟨0, 1, "hello"⟩],
                   file_path := some "/tmp/a.wav",
                   file_name := some "a.wav", timestamp := some 1700000000,
                   date := some "2024-01-01 00:00:00" }])) 0
        HistoryManager.ExportWrite.ok
      = (some (("File: " ++ "a.wav" ++ "\n") ++ ("Language: " ++ "en" ++ "\n")
          ++ ("Date: " ++ "2024-01-01 00:00:00" ++ "\n")
          ++ ("Path: " ++ "/tmp/a.wav" ++ "\n")
          ++ "\nTranscription:\n" ++ "hello"),
         PyRet.boolVal true) :=
  (C8_export_semantics
      (HistoryManager.mkStore
        (some [{ text := some "hello", language := some "en",
                 segments := some [⟨0, 1, "hello"⟩],
                 file_path := some "/tmp/a.wav",
                 file_name := some "a.wav", timestamp := some 1700000000,
                 date := some "2024-01-01 00:00:00" }])) 0
      "a.wav" "en" "2024-01-01 00:00:00" "/tmp/a.wav" "hello" none).1
    (by decide) (by decide) (by decide) (by decide) (by decide) (by decide)
    (by decide)

/-- C9: `get_history` returns `self.history.copy()` — a fresh list object,
allocated at a new address distinct from the store's own `self.history`
list, holding the same element references without copying any entry
dictionary. Hence appending to the returned list, or removing from it,
never changes the content of the store's list; while mutating the entry
object behind a reference obtained from the returned list changes the
entry the store denotes at that position (and with it the content of the
store's next persisted write, which serializes `entriesAt`). -/
theorem C9_get_history_shallow_copy (lh : RefModel.ListHeap)
    (s : RefModel.StoreObj) (h : RefModel.Heap) (i r x : Nat) (e' : Entry)
    (hs : s.historyRef < lh.lists.length)
    (hr : (RefModel.listContent lh s.historyRef)[i]? = some r)
    (hlen : r < h.length) :
    (RefModel.get_history lh s).2 ≠ s.historyRef ∧
    RefModel.listContent (RefModel.get_history lh s).1
        (RefModel.get_history lh s).2
      = RefModel.listContent lh s.historyRef ∧
    RefModel.listContent
        (RefModel.listAppend (RefModel.get_history lh s).1
          (RefModel.get_history lh s).2 x)
        s.historyRef
      = RefModel.listContent lh s.historyRef ∧
    RefModel.listContent
        (RefModel.listRemoveAt (RefModel.get_history lh s).1
          (RefModel.get_history lh s).2 i)
        s.historyRef
      = RefModel.listContent lh s.historyRef ∧
    (RefModel.entriesAt (h.set r e') lh s.historyRef)[i]? = some e' := by
  refine ⟨?_, ?_, ?_, ?_, ?_⟩
  · show lh.lists.length ≠ s.historyRef
    omega
  · unfold RefModel.get_history RefModel.listContent
    simp [List.getD_eq_getElem?_getD, List.getElem?_concat_length]
  · unfold RefModel.listAppend RefModel.get_history RefModel.listContent
    simp [List.getD_eq_getElem?_getD,
      List.getElem?_set_ne (by omega : lh.lists.length ≠ s.historyRef),
      List.getElem?_append_left hs]
  · unfold RefModel.listRemoveAt RefModel.get_history RefModel.listContent
    simp [List.getD_eq_getElem?_getD,
      List.getElem?_set_ne (by omega : lh.lists.length ≠ s.historyRef),
      List.getElem?_append_left hs]
  · unfold RefModel.entriesAt
    rw [List.getElem?_map, hr]
    simp [List.getD_eq_getElem?_getD,
      List.getElem?_set_self (by simpa using hlen)]

/-- Witness for C9: with one store whose list object lives at address 0 and
holds the single entry reference 0, appending to the copy `get_history`
returned leaves the store's own list unchanged. -/
theorem C9_get_history_shallow_copy_witness :
    RefModel.listContent
        (RefModel.listAppend (RefModel.get_history ⟨[[0]]⟩ ⟨0⟩).1
          (RefModel.get_history ⟨[[0]]⟩ ⟨0⟩).2 1) 0
      = RefModel.listContent ⟨[[0]]⟩ 0 :=
  (C9_get_history_shallow_copy ⟨[[0]]⟩ ⟨0⟩ [{}] 0 0 1 { text := some "x" }
    (by decide) (by decide) (by decide)).2.2.1

/-- C10: `add_transcription` mutates its argument in place — the caller's
dictionary object now carries the `timestamp` and `date` keys — and
appends that same object (the same reference, no copy) to the store, so
the caller's reference aliases the last stored history entry. -/
theorem C10_add_mutates_argument (h : RefModel.Heap) (s : RefModel.Store)
    (r : Nat) (now : ℚ) (d : String) (hr : r < h.length) :
    ((RefModel.add_transcription h s r now d).1.getD r {}).timestamp
      = some now ∧
    ((RefModel.add_transcription h s r now d).1.getD r {}).date = some d ∧
    (RefModel.add_transcription h s r now d).2.refs = s.refs ++ [r] ∧
    (RefModel.entriesOf (RefModel.add_transcription h s r now d).1
        (RefModel.add_transcription h s r now d).2).getLast?
      = some ((RefModel.add_transcription h s r now d).1.getD r {}) := by
  have hget : (RefModel.add_transcription h s r now d).1.getD r {}
      = HistoryManager.stamp now d (h.getD r {}) := by
    unfold RefModel.add_transcription
    simp [List.getD_eq_getElem?_getD,
      List.getElem?_set_self (by simpa using hr)]
  refine ⟨by rw [hget]; rfl, by rw [hget]; rfl, rfl, ?_⟩
  unfold RefModel.entriesOf RefModel.add_transcription
  simp [List.getLast?_concat]

/-- Witness for C10: adding the heap object at address 0 stamps that very
object with the timestamp. -/
theorem C10_add_mutates_argument_witness :
    ((RefModel.add_transcription [{}] ⟨[]⟩ 0 5
        "2024-01-03 00:00:00").1.getD 0 {}).timestamp = some 5 :=
  (C10_add_mutates_argument [{}] ⟨[]⟩ 0 5 "2024-01-03 00:00:00"
    (by decide)).1

end SeeMySpeech
